import Mathlib

/-!
Verification of the Sydney RentSmart recommendation service.

This file shallowly embeds the TypeScript source of the repository:

* `src/lib/suburbs.ts` — the suburb data model, `calculateRentStress`,
  `getRentStressRating`, `medianRentKey`, `searchSuburbs`,
  `getSuburbByPostcode`;
* `src/app/api/recommend/route.ts` — `resolveSharedRent`, parameter
  validation, the scored-suburb pipeline of `GET /recommend` and its
  default sort;
* `src/lib/commute` (`amenities.ts` in the bundle) — `haversineKm`,
  `estimateCommuteTime`;
* the in-memory enrichment cache of `src/app/api/overpass-poi/route.ts`.

JavaScript numbers are modelled as rationals (`ℚ`) except for the
trigonometric haversine code, which is modelled over the reals.
`Math.round x` is modelled as `⌊x + 1/2⌋` (round half toward +∞), and
JavaScript string operations are modelled on the underlying character
lists.  Module-level data tables (`sydney_suburbs.json`) are passed to
the embedded functions as an explicit list parameter.
-/

/-! ### JavaScript numeric primitives -/

/-- `Math.round` on rationals: round half toward positive infinity. -/
def jsRound (q : ℚ) : ℤ := ⌊q + 1 / 2⌋

/-- `Math.round (q * 10) / 10`: round to one decimal place, as used
throughout the service. -/
def round1 (q : ℚ) : ℚ := (jsRound (q * 10) : ℚ) / 10

/-- `Math.round` on reals (for the haversine-based code). -/
noncomputable def jsRoundR (x : ℝ) : ℤ := ⌊x + 1 / 2⌋

/-! ### JavaScript string primitives, modelled on character lists -/

/-- `String.prototype.toLowerCase`, modelled characterwise. -/
def jsLower (s : String) : String := ⟨s.data.map Char.toLower⟩

/-- `String.prototype.trim`: strip whitespace from both ends. -/
def jsTrim (s : String) : String :=
  ⟨((s.data.dropWhile Char.isWhitespace).reverse.dropWhile Char.isWhitespace).reverse⟩

/-- `String.prototype.startsWith`. -/
def jsStartsWith (s pre : String) : Bool := pre.data.isPrefixOf s.data

/-- Helper for substring containment on character lists. -/
def listContainsSeg (needle : List Char) : List Char → Bool
  | [] => needle.isEmpty
  | c :: rest => needle.isPrefixOf (c :: rest) || listContainsSeg needle rest

/-- `String.prototype.includes`: substring containment. -/
def jsIncludes (s sub : String) : Bool := listContainsSeg sub.data s.data

/-! ### Data model (`src/lib/suburbs.ts`) -/

/-- The four-tier rating union type `RentStressRating`. -/
inductive RentStressRating where
  | comfortable
  | manageable
  | stressed
  | severe
deriving DecidableEq, Repr

/-- `RentStressResult`. -/
structure RentStressResult where
  percentage : ℚ
  rating : RentStressRating
deriving DecidableEq, Repr

/-- The `Suburb` record of `sydney_suburbs.json`.  Nullable numeric fields
become `Option ℚ`; the two `Record<string, number>` fields become
association lists. -/
structure Suburb where
  suburb_key : String
  postcode : String
  suburb_name : Option String
  lat : Option ℚ
  lng : Option ℚ
  median_rent_overall : Option ℚ
  avg_rent : Option ℚ
  total_bonds : ℚ
  median_rent_1bed : Option ℚ
  median_rent_2bed : Option ℚ
  median_rent_3bed : Option ℚ
  median_rent_4bed : Option ℚ
  median_rent_5plusbed : Option ℚ
  dwelling_types : List (String × ℚ)
  rent_trend : List (String × ℚ)
  median_household_income_weekly : Option ℚ
deriving DecidableEq, Repr

/-- `getSuburbByPostcode`: direct key lookup on the suburb map (keys are
`suburb_key` strings), then a scan by the `postcode` field. -/
def getSuburbByPostcode (subs : List Suburb) (p : String) : Option Suburb :=
  match subs.find? (fun s => s.suburb_key == p) with
  | some s => some s
  | none => subs.find? (fun s => s.postcode == p)

/-- `suburb[medianRentKey(beds)]`: `medianRentKey` maps a bedroom count to
the field name (`>= 5` maps to `"5+bed"`), and the caller reads that field
of the record.  A count of `0` has no corresponding field. -/
def rentForBeds (s : Suburb) (beds : ℕ) : Option ℚ :=
  if beds ≥ 5 then s.median_rent_5plusbed
  else match beds with
    | 1 => s.median_rent_1bed
    | 2 => s.median_rent_2bed
    | 3 => s.median_rent_3bed
    | 4 => s.median_rent_4bed
    | _ => none

/-- `getRentStressRating`. -/
def getRentStressRating (percentage : ℚ) : RentStressRating :=
  if percentage < 25 then .comfortable
  else if percentage ≤ 30 then .manageable
  else if percentage ≤ 40 then .stressed
  else .severe

/-- `calculateRentStress`. -/
def calculateRentStress (weeklyIncome weeklyRent : ℚ) : RentStressResult :=
  if weeklyIncome ≤ 0 then ⟨100, .severe⟩
  else
    let percentage := (jsRound (weeklyRent / weeklyIncome * 1000) : ℚ) / 10
    ⟨percentage, getRentStressRating percentage⟩

/-- The lower-cased suburb name used by `searchSuburbs`:
`s.suburb_name?.toLowerCase() ?? ""`. -/
def nameLC (s : Suburb) : String := jsLower (s.suburb_name.getD "")

/-- The classification loop of `searchSuburbs`: one pass over the suburbs,
each suburb pushed into the first bucket whose test it passes
(exact name, name starts-with, name contains, postcode starts-with). -/
def searchBuckets (q : String) :
    List Suburb → List Suburb × List Suburb × List Suburb × List Suburb
  | [] => ([], [], [], [])
  | s :: rest =>
    let (ex, sw, co, pc) := searchBuckets q rest
    if nameLC s = q then (s :: ex, sw, co, pc)
    else if jsStartsWith (nameLC s) q then (ex, s :: sw, co, pc)
    else if jsIncludes (nameLC s) q then (ex, sw, s :: co, pc)
    else if jsStartsWith s.postcode q then (ex, sw, co, s :: pc)
    else (ex, sw, co, pc)

/-- `searchSuburbs`: lower-case and trim the query; an empty effective
query returns all suburbs, otherwise the four buckets concatenated in
priority order. -/
def searchSuburbs (subs : List Suburb) (query : String) : List Suburb :=
  let q := jsTrim (jsLower query)
  if q = "" then subs
  else
    let (ex, sw, co, pc) := searchBuckets q subs
    ex ++ sw ++ co ++ pc

/-! Derived predicates naming the four priority classes of
`searchSuburbs` (each class excludes the earlier ones, mirroring the
`else if` chain). -/

/-- Exact (lower-cased) name match. -/
def matchesExact (q : String) (s : Suburb) : Bool := nameLC s = q

/-- Name-prefix match that is not an exact match. -/
def matchesStart (q : String) (s : Suburb) : Bool :=
  !(nameLC s = q) && jsStartsWith (nameLC s) q

/-- Name-substring match that is neither exact nor a prefix match. -/
def matchesSub (q : String) (s : Suburb) : Bool :=
  !(nameLC s = q) && !(jsStartsWith (nameLC s) q) && jsIncludes (nameLC s) q

/-- Postcode-prefix match for suburbs matching on none of the name tests. -/
def matchesPostcode (q : String) (s : Suburb) : Bool :=
  !(nameLC s = q) && !(jsStartsWith (nameLC s) q) && !(jsIncludes (nameLC s) q)
    && jsStartsWith s.postcode q

/-! ### `GET /recommend` (`src/app/api/recommend/route.ts`) -/

/-- The record returned by `resolveSharedRent` (its `totalRent` is always
non-null at both return sites). -/
structure ResolvedRent where
  totalRent : ℚ
  perPersonRent : ℚ
  rentEstimated : Bool
  bedsUsed : ℕ
deriving DecidableEq, Repr

/-- Target bedroom count in shared mode: a 2-person group sharing one
bedroom targets 1, otherwise `min(group size, 4)`. -/
def targetBedsFor (sharingCount : ℕ) (shareBedroom : Bool) : ℕ :=
  if sharingCount = 2 ∧ shareBedroom then 1 else min sharingCount 4

/-- Minimum bedroom guardrail in shared mode:
`sharingCount === 2 && shareBedroom ? 1 : sharingCount >= 4 ? 3 : sharingCount >= 3 ? 2 : 1`. -/
def minBedsFor (sharingCount : ℕ) (shareBedroom : Bool) : ℕ :=
  if sharingCount = 2 ∧ shareBedroom then 1
  else if 4 ≤ sharingCount then 3
  else if 3 ≤ sharingCount then 2
  else 1

/-- The fallback loop of `resolveSharedRent`:
`for (let beds = targetBeds; beds >= minBeds; beds--)`, returning the
first non-null rent together with the bedroom count used. -/
def rentFallback (s : Suburb) (minBeds : ℕ) : ℕ → Option (ℚ × ℕ)
  | 0 => none
  | beds + 1 =>
    if beds + 1 < minBeds then none
    else match rentForBeds s (beds + 1) with
      | some v => some (v, beds + 1)
      | none => rentFallback s minBeds beds

/-- `resolveSharedRent` over the integer parameter domain of the sharing
policy (claim C4).  In solo mode (`sharingCount <= 1`) the rent is the
user-selected bedroom figure (overall median when the bedroom count is
absent — or `0`, which is falsy in JavaScript); in shared mode the target
bedroom figure with downward fallback to the guardrail, flagged as
estimated whenever a fallback was used.  Per-person rent is
`Math.round((rent / sharingCount) * 10) / 10`.  `resolveSharedRentQ`
below extends this to the arbitrary JavaScript numbers the route passes
at run time. -/
def resolveSharedRent (s : Suburb) (userBedrooms : Option ℕ)
    (sharingCount : ℕ) (shareBedroom : Bool) : Option ResolvedRent :=
  if sharingCount ≤ 1 then
    let rent := match userBedrooms with
      | some b => if b = 0 then s.median_rent_overall else rentForBeds s b
      | none => s.median_rent_overall
    match rent with
    | none => none
    | some r => some ⟨r, r, false, userBedrooms.getD 0⟩
  else
    let targetBeds := targetBedsFor sharingCount shareBedroom
    let minBeds := minBedsFor sharingCount shareBedroom
    match rentFallback s minBeds targetBeds with
    | none => none
    | some (r, bedsUsed) =>
      some ⟨r, round1 (r / (sharingCount : ℚ)), bedsUsed != targetBeds, bedsUsed⟩

/-- The trend-penalty computation of the recommend loop: sort the
`rent_trend` years (JavaScript default sort = lexicographic), and if the
relative increase from oldest to newest exceeds 10%, penalise by
`min(5, increase * 10)`. -/
def trendPenalty (s : Suburb) : ℚ :=
  let trendYears := List.mergeSort (s.rent_trend.map Prod.fst) (fun a b => a ≤ b)
  if trendYears.length ≥ 2 then
    let oldest := (s.rent_trend.lookup (trendYears.headD "")).getD 0
    let newest := (s.rent_trend.lookup (trendYears.getLastD "")).getD 0
    if oldest > 0 then
      let increase := (newest - oldest) / oldest
      if increase > 1 / 10 then min 5 (increase * 10) else 0
    else 0
  else 0

/-- Value of a JavaScript field read `suburb[key]`: the field may be
absent (`undefined`), hold the JSON value `null`, or hold a number. -/
inductive JsRent where
  | absent
  | jsNull
  | num (q : ℚ)
deriving DecidableEq, Repr

/-- A nullable numeric field of the data, read as a JavaScript value. -/
def jsRentOfOpt : Option ℚ → JsRent
  | none => .jsNull
  | some q => .num q

/-- The read `suburb[medianRentKey(beds)]` for an arbitrary JavaScript
bedroom count: `medianRentKey` maps counts `>= 5` to the `"5+bed"` field
and any other count `b` to the field named after `b`, which the record
carries only for 1, 2, 3 and 4 — every other count (for example the
validated request `bedrooms=2.5`) reads a field that is not on the
record and yields `undefined`. -/
def rentAtQ (s : Suburb) (beds : ℚ) : JsRent :=
  if beds ≥ 5 then jsRentOfOpt s.median_rent_5plusbed
  else if beds = 1 then jsRentOfOpt s.median_rent_1bed
  else if beds = 2 then jsRentOfOpt s.median_rent_2bed
  else if beds = 3 then jsRentOfOpt s.median_rent_3bed
  else if beds = 4 then jsRentOfOpt s.median_rent_4bed
  else .absent

/-- The rent-stress result as produced inside the recommend loop, where
the rent may be a non-number: `none` models `NaN` (and the `undefined`
that turns into `NaN` in arithmetic). -/
structure RentStressResultQ where
  percentage : Option ℚ
  rating : RentStressRating
deriving DecidableEq, Repr

/-- `calculateRentStress` applied to a JavaScript number that may be
`undefined` or `NaN` (`none`): a genuine number behaves exactly as
`calculateRentStress`; a non-number makes `rent / income` and hence the
rounded percentage `NaN`, and every tier comparison against `NaN` is
false, so the rating chain falls through to severe. -/
def calculateRentStressQ (weeklyIncome : ℚ) (weeklyRent : Option ℚ) : RentStressResultQ :=
  if weeklyIncome ≤ 0 then ⟨some 100, .severe⟩
  else match weeklyRent with
    | none => ⟨none, .severe⟩
    | some r =>
      let percentage := (jsRound (r / weeklyIncome * 1000) : ℚ) / 10
      ⟨some percentage, getRentStressRating percentage⟩

/-- Shared-mode target bedroom count for an arbitrary JavaScript sharing
count (`sharingCount === 2` is an exact comparison, so only the integer 2
triggers the bedroom-sharing special case). -/
def targetBedsForQ (sharingCount : ℚ) (shareBedroom : Bool) : ℚ :=
  if sharingCount = 2 ∧ shareBedroom then 1 else min sharingCount 4

/-- Shared-mode minimum bedroom guardrail for an arbitrary JavaScript
sharing count. -/
def minBedsForQ (sharingCount : ℚ) (shareBedroom : Bool) : ℚ :=
  if sharingCount = 2 ∧ shareBedroom then 1
  else if 4 ≤ sharingCount then 3
  else if 3 ≤ sharingCount then 2
  else 1

/-- One step of `for (let beds = targetBeds; beds >= minBeds; beds--)`
over JavaScript numbers: the loop breaks at the first field value that is
not `null` — a number, but also `undefined` when `beds` names no field.
The natural-number argument only bounds the recursion depth; 
`rentFallbackQ` passes a bound that the loop can never exhaust. -/
def rentFallbackQAux (s : Suburb) (minBeds : ℚ) : ℚ → ℕ → Option (JsRent × ℚ)
  | _, 0 => none
  | beds, fuel + 1 =>
    if beds < minBeds then none
    else match rentAtQ s beds with
      | .jsNull => rentFallbackQAux s minBeds (beds - 1) fuel
      | v => some (v, beds)

/-- The fallback loop of the shared branch, from `targetBeds` down to
`minBeds` in steps of one.  The JavaScript loop runs at most
`⌈targetBeds - minBeds⌉ + 1` times (then `beds < minBeds`), so that
count bounds the recursion without changing its result. -/
def rentFallbackQ (s : Suburb) (minBeds targetBeds : ℚ) : Option (JsRent × ℚ) :=
  rentFallbackQAux s minBeds targetBeds (⌈targetBeds - minBeds⌉ + 1).toNat

/-- The record returned by `resolveSharedRent`: `totalRent` and
`perPersonRent` are JavaScript numbers that may be non-numbers (`none`
models the `undefined` total and the `NaN` per-person rent produced when
an absent field is read). -/
structure ResolvedRentQ where
  totalRent : Option ℚ
  perPersonRent : Option ℚ
  rentEstimated : Bool
  bedsUsed : ℚ
deriving DecidableEq, Repr

/-- `resolveSharedRent` over the JavaScript numbers the route actually
passes (validation admits any bedrooms in `[1, 5]` and clamps sharing
into `[1, 4]`, fractions included).  Only a `null` field value fails the
`rent === null` test: an `undefined` read slips past it, producing an
`undefined` total and a `NaN` per-person rent.  The `.jsNull` fallback
arm mirrors the final `rent === null` check — the loop never breaks on a
`null` value, so that arm and the `none` arm both return `null`. -/
def resolveSharedRentQ (s : Suburb) (userBedrooms : Option ℚ) (sharingCount : ℚ)
    (shareBedroom : Bool) : Option ResolvedRentQ :=
  if sharingCount ≤ 1 then
    let rent : JsRent := match userBedrooms with
      | some b => if b = 0 then jsRentOfOpt s.median_rent_overall else rentAtQ s b
      | none => jsRentOfOpt s.median_rent_overall
    match rent with
    | .jsNull => none
    | .absent => some ⟨none, none, false, userBedrooms.getD 0⟩
    | .num r => some ⟨some r, some r, false, userBedrooms.getD 0⟩
  else
    let targetBeds := targetBedsForQ sharingCount shareBedroom
    let minBeds := minBedsForQ sharingCount shareBedroom
    match rentFallbackQ s minBeds targetBeds with
    | none => none
    | some (.jsNull, _) => none
    | some (.absent, bedsUsed) => some ⟨none, none, bedsUsed != targetBeds, bedsUsed⟩
    | some (.num r, bedsUsed) =>
      some ⟨some r, some (round1 (r / sharingCount)), bedsUsed != targetBeds, bedsUsed⟩

/-- The filter `if (stress.percentage > 100) continue`: `NaN > 100` is
false, so entries with a non-number percentage are kept. -/
def stressGT100 : Option ℚ → Bool
  | none => false
  | some p => p > 100

/-- The `ScoredSuburb` record built by the `GET /recommend` loop.  The
fields derived from the resolved rent are JavaScript numbers that may be
non-numbers (`none` = `undefined`/`NaN`).  Presentation-only enrichments
(nearest station, commute estimate, trend echo, dwelling types, the
solo-rent savings comparison) are pass-through values that influence
neither filtering nor ordering; they are omitted here. -/
structure ScoredSuburb where
  suburb_key : String
  postcode : String
  suburb_name : Option String
  lat : Option ℚ
  lng : Option ℚ
  median_rent : Option ℚ
  rent_stress_pct : Option ℚ
  affordability_score : Option ℚ
  rating : RentStressRating
  total_bonds : ℚ
  sharing_mode : ℚ
  total_rent : Option ℚ
  per_person_rent : Option ℚ
  rent_estimated : Bool
deriving DecidableEq, Repr

/-- One iteration of the `GET /recommend` scoring loop: skip the suburb
if no rent record resolves or the per-person rent-stress percentage
exceeds 100 (a `NaN` percentage compares false and is kept), otherwise
build the scored record with `affordability_score =
round((stress - supplyBonus + trendPenalty), 1)`, through which `NaN`
propagates. -/
def scoreSuburb (income : ℚ) (bedrooms : Option ℚ) (sharingCount : ℚ)
    (shareBedroom : Bool) (s : Suburb) : Option ScoredSuburb :=
  match resolveSharedRentQ s bedrooms sharingCount shareBedroom with
  | none => none
  | some res =>
    let stress := calculateRentStressQ income res.perPersonRent
    if stressGT100 stress.percentage then none
    else
      let supplyBonus : ℚ := min 5 (s.total_bonds / 500)
      let tp := trendPenalty s
      some
        { suburb_key := s.suburb_key
          postcode := s.postcode
          suburb_name := s.suburb_name
          lat := s.lat
          lng := s.lng
          median_rent := res.perPersonRent
          rent_stress_pct := stress.percentage
          affordability_score := stress.percentage.map (fun p => round1 (p - supplyBonus + tp))
          rating := stress.rating
          total_bonds := s.total_bonds
          sharing_mode := sharingCount
          total_rent := res.totalRent
          per_person_rent := res.perPersonRent
          rent_estimated := res.rentEstimated }

/-- `MAX_RESULTS`. -/
def MAX_RESULTS : ℕ := 500

/-- The comparator `(a, b) => a.rent_stress_pct - b.rent_stress_pct` as
the ordering of a stable sort: two numbers compare numerically; when
either percentage is `NaN` the comparator returns `NaN`, which
`Array.prototype.sort` treats as `+0` — the pair keeps its current
order, modelled by `true` in both orientations. -/
def stressCmpLE (a b : ScoredSuburb) : Bool :=
  match a.rent_stress_pct, b.rent_stress_pct with
  | some x, some y => x ≤ y
  | _, _ => true

/-- The suburb list returned by `GET /recommend`: score every suburb,
sort by the rent-stress comparator (a stable sort) and keep the first
`MAX_RESULTS`. -/
def recommendList (subs : List Suburb) (income : ℚ) (bedrooms : Option ℚ)
    (sharingCount : ℚ) (shareBedroom : Bool) : List ScoredSuburb :=
  (List.mergeSort (subs.filterMap (scoreSuburb income bedrooms sharingCount shareBedroom))
      stressCmpLE).take MAX_RESULTS

/-- The parse result of one query parameter: absent (or empty), present
but not a number (`NaN`), or a numeric value. -/
inductive ParamVal where
  | missing
  | nan
  | num (q : ℚ)
deriving DecidableEq, Repr

/-- The validation prelude of `GET /recommend`: `none` models a 400
response.  Income must be present and parse to a number `> 0`; bedrooms,
when present, must parse to a number within 1–5. -/
def validateRecommend (income bedrooms : ParamVal) : Option (ℚ × Option ℚ) :=
  match income with
  | .missing => none
  | .nan => none
  | .num q =>
    if q ≤ 0 then none
    else match bedrooms with
      | .missing => some (q, none)
      | .nan => none
      | .num b => if b < 1 ∨ 5 < b then none else some (q, some b)

/-- The `^\d{4}$` test of the workplace fallback. -/
def isFourDigits (t : String) : Bool := t.data.length == 4 && t.data.all Char.isDigit

/-- Workplace resolution in `GET /recommend`: name search first, taking
the first hit; a pure 4-digit postcode with no search results falls back
to a direct postcode lookup. -/
def resolveWorkplace (subs : List Suburb) (w : String) : Option Suburb :=
  let trimmed := jsTrim w
  match searchSuburbs subs trimmed with
  | m :: _ => some m
  | [] => if isFourDigits trimmed then getSuburbByPostcode subs trimmed else none

/-! ### Haversine and commute estimates (`src/lib/commute`, `amenities.ts`) -/

/-- `toRad`. -/
noncomputable def toRad (deg : ℝ) : ℝ := deg * Real.pi / 180

/-- `Math.atan2`, by cases on the quadrant (the signed-zero distinction of
IEEE 754 is not modelled; both zeros are the rational 0). -/
noncomputable def atan2 (y x : ℝ) : ℝ :=
  if 0 < x then Real.arctan (y / x)
  else if x < 0 then
    if 0 ≤ y then Real.arctan (y / x) + Real.pi else Real.arctan (y / x) - Real.pi
  else if 0 < y then Real.pi / 2
  else if y < 0 then -(Real.pi / 2)
  else 0

/-- `haversineKm`: great-circle distance with Earth radius 6371 km. -/
noncomputable def haversineKm (lat1 lng1 lat2 lng2 : ℝ) : ℝ :=
  let R : ℝ := 6371
  let dLat := toRad (lat2 - lat1)
  let dLng := toRad (lng2 - lng1)
  let a := Real.sin (dLat / 2) ^ 2 +
    Real.cos (toRad lat1) * Real.cos (toRad lat2) * Real.sin (dLng / 2) ^ 2
  R * 2 * atan2 (Real.sqrt a) (Real.sqrt (1 - a))

/-- `CommuteEstimate`. -/
structure CommuteEstimate where
  distanceKm : ℝ
  estimatedMinutes : ℤ
  label : String

/-- JavaScript truthiness of a nullable number: `null`/absent and `0` are
falsy. -/
def truthyQ : Option ℚ → Bool
  | none => false
  | some q => q != 0

/-- Both coordinates of the suburb resolved for a postcode pass the
truthiness guard `!from?.lat || !from?.lng` of `estimateCommuteTime`. -/
def commuteResolvable (subs : List Suburb) (p : String) : Bool :=
  match getSuburbByPostcode subs p with
  | some s => truthyQ s.lat && truthyQ s.lng
  | none => false

/-- `estimateCommuteTime`: resolve both postcodes, require truthy
coordinates, short-circuit equal postcodes to `{0 km, 5 min}`, otherwise
estimate `max(5, round(distance * 2.5))` minutes from the haversine
distance. -/
noncomputable def estimateCommuteTime (subs : List Suburb) (fromP toP : String) :
    Option CommuteEstimate :=
  match getSuburbByPostcode subs fromP, getSuburbByPostcode subs toP with
  | some f, some t =>
    if truthyQ f.lat && truthyQ f.lng && truthyQ t.lat && truthyQ t.lng then
      if fromP = toP then some ⟨0, 5, "~5 min"⟩
      else
        let dist := haversineKm ((f.lat.getD 0 : ℚ) : ℝ) ((f.lng.getD 0 : ℚ) : ℝ)
          ((t.lat.getD 0 : ℚ) : ℝ) ((t.lng.getD 0 : ℚ) : ℝ)
        let minutes := max 5 (jsRoundR (dist * (5 / 2)))
        some ⟨((jsRoundR (dist * 10) : ℤ) : ℝ) / 10, minutes,
          "~" ++ toString minutes ++ " min"⟩
    else none
  | _, _ => none

/-! ### Enrichment cache (`src/app/api/overpass-poi/route.ts`) -/

/-- `CachedResult`: a cached payload with its write timestamp
(milliseconds). -/
structure CachedResult (α : Type) where
  data : α
  timestamp : ℚ
deriving DecidableEq, Repr

/-- The in-memory `Map` backing the cache, as a partial map from keys. -/
def Cache (α : Type) : Type := String → Option (CachedResult α)

/-- `CACHE_TTL_MS = 24 * 60 * 60 * 1000`. -/
def CACHE_TTL_MS : ℚ := 24 * 60 * 60 * 1000

/-- `getCached` at read time `now`: a missing key yields `null`; an entry
older than the TTL is deleted and yields `null`; otherwise the data is
returned.  The second component is the cache after the read. -/
def getCached (now : ℚ) (cache : Cache α) (key : String) : Option α × Cache α :=
  match cache key with
  | none => (none, cache)
  | some entry =>
    if now - entry.timestamp > CACHE_TTL_MS then
      (none, fun k => if k = key then none else cache k)
    else (some entry.data, cache)

/-- The cache interaction of one `POST /api/overpass-poi` request with its
key already built: on a cache hit return the cached data, otherwise fetch
upstream (`upstream` is the fetched payload), store it with the current
timestamp and return it.  The boolean records whether the upstream fetch
was performed. -/
def overpassStep (now : ℚ) (cache : Cache α) (key : String) (upstream : α) :
    α × Cache α × Bool :=
  match getCached now cache key with
  | (some d, c) => (d, c, false)
  | (none, c) => (upstream, fun k => if k = key then some ⟨upstream, now⟩ else c k, true)

/-! ### Concrete records for witnesses and counterexamples -/

/-- A blank suburb record used as a base for concrete examples. -/
def blankSuburb : Suburb :=
  { suburb_key := "Blank_2999"
    postcode := "2999"
    suburb_name := none
    lat := none
    lng := none
    median_rent_overall := none
    avg_rent := none
    total_bonds := 0
    median_rent_1bed := none
    median_rent_2bed := none
    median_rent_3bed := none
    median_rent_4bed := none
    median_rent_5plusbed := none
    dwelling_types := []
    rent_trend := []
    median_household_income_weekly := none }

/-- A cheap suburb with no bond supply and a steep rent trend: rent stress
30.0 but composite score 35.0. -/
def suburbTrendy : Suburb :=
  { blankSuburb with
    suburb_key := "Trendy_2010"
    postcode := "2010"
    suburb_name := some "Trendy"
    median_rent_overall := some 300
    total_bonds := 0
    rent_trend := [("2021", 100), ("2025", 200)] }

/-- A slightly dearer suburb with deep bond supply and a flat trend: rent
stress 31.0 but composite score 26.0. -/
def suburbSupplied : Suburb :=
  { blankSuburb with
    suburb_key := "Supplied_2020"
    postcode := "2020"
    suburb_name := some "Supplied"
    median_rent_overall := some 310
    total_bonds := 2500
    rent_trend := [] }

/-- Scored record produced for `suburbTrendy` at income 1000, solo mode. -/
def eTrendy : ScoredSuburb :=
  { suburb_key := "Trendy_2010", postcode := "2010", suburb_name := some "Trendy"
    lat := none, lng := none, median_rent := some 300, rent_stress_pct := some 30
    affordability_score := some 35, rating := .manageable, total_bonds := 0
    sharing_mode := 1, total_rent := some 300, per_person_rent := some 300
    rent_estimated := false }

/-- Scored record produced for `suburbSupplied` at income 1000, solo mode. -/
def eSupplied : ScoredSuburb :=
  { suburb_key := "Supplied_2020", postcode := "2020", suburb_name := some "Supplied"
    lat := none, lng := none, median_rent := some 310, rent_stress_pct := some 31
    affordability_score := some 26, rating := .stressed, total_bonds := 2500
    sharing_mode := 1, total_rent := some 310, per_person_rent := some 310
    rent_estimated := false }

/-- The scored record a suburb receives when its resolved rent is a
non-number: `NaN` stress and score, severe rating. -/
def nanScored (sharingCount : ℚ) (s : Suburb) : ScoredSuburb :=
  { suburb_key := s.suburb_key, postcode := s.postcode, suburb_name := s.suburb_name
    lat := s.lat, lng := s.lng, median_rent := none, rent_stress_pct := none
    affordability_score := none, rating := .severe, total_bonds := s.total_bonds
    sharing_mode := sharingCount, total_rent := none, per_person_rent := none
    rent_estimated := false }

/-- Concrete enrichment cache holding one entry written at time 0. -/
def cacheDemo : Cache ℕ := fun k => if k = "poi" then some ⟨7, 0⟩ else none

/-! ### Helper lemmas -/

/-- Evaluation rule for `jsRound` by sandwiching the argument. -/
theorem jsRound_eval {q : ℚ} {z : ℤ} (h1 : (z : ℚ) ≤ q + 1 / 2) (h2 : q + 1 / 2 < (z : ℚ) + 1) :
    jsRound q = z := by
  rw [jsRound, Int.floor_eq_iff]
  · exact ⟨h1, by exact_mod_cast h2⟩

/-- Evaluation rule for `round1`. -/
theorem round1_eval {q : ℚ} {z : ℤ} (h1 : (z : ℚ) ≤ q * 10 + 1 / 2)
    (h2 : q * 10 + 1 / 2 < (z : ℚ) + 1) : round1 q = (z : ℚ) / 10 := by
  rw [round1, jsRound_eval h1 h2]

unseal List.mergeSort List.merge in
theorem mergeSort_pair {α : Type} (le : α → α → Bool) (a b : α) :
    List.mergeSort [a, b] le = if le a b then [a, b] else [b, a] := by
  rw [List.mergeSort]
  simp only [List.splitInTwo_fst, List.splitInTwo_snd]
  norm_num
  rw [List.cons_merge_cons]
  split
  · simp
  · simp

/-- Trend penalty of the demo suburb with a 100-to-200 rent trend. -/
theorem tp_trendy : trendPenalty suburbTrendy = 5 := by
  simp only [trendPenalty, suburbTrendy, blankSuburb]
  norm_num
  rw [mergeSort_pair]
  simp +decide [List.lookup]
  norm_num

/-- Trend penalty of the demo suburb with no rent trend. -/
theorem tp_supplied : trendPenalty suburbSupplied = 0 := by
  simp [trendPenalty, suburbSupplied, blankSuburb]

/-- Rent stress of 300 a week on 1000 a week: 30.0%, manageable. -/
theorem crs_trendy : calculateRentStressQ 1000 (some 300) = ⟨some 30, .manageable⟩ := by
  have h1 : jsRound ((300:ℚ) / 1000 * 1000) = 300 := jsRound_eval (by norm_num) (by norm_num)
  simp only [calculateRentStressQ, h1]
  norm_num [getRentStressRating]

/-- Rent stress of 310 a week on 1000 a week: 31.0%, stressed. -/
theorem crs_supplied : calculateRentStressQ 1000 (some 310) = ⟨some 31, .stressed⟩ := by
  have h1 : jsRound ((310:ℚ) / 1000 * 1000) = 310 := jsRound_eval (by norm_num) (by norm_num)
  simp only [calculateRentStressQ, h1]
  norm_num [getRentStressRating]

/-- The scoring loop on `suburbTrendy`. -/
theorem score_trendy : scoreSuburb 1000 none 1 false suburbTrendy = some eTrendy := by
  have hrs : resolveSharedRentQ suburbTrendy none 1 false =
      some ⟨some 300, some 300, false, 0⟩ := by decide
  simp only [scoreSuburb, hrs, crs_trendy, tp_trendy]
  norm_num [stressGT100, suburbTrendy, blankSuburb, eTrendy]
  rw [round1_eval (z := 350) (by norm_num) (by norm_num)]
  norm_num

/-- The scoring loop on `suburbSupplied`. -/
theorem score_supplied : scoreSuburb 1000 none 1 false suburbSupplied = some eSupplied := by
  have hrs : resolveSharedRentQ suburbSupplied none 1 false =
      some ⟨some 310, some 310, false, 0⟩ := by decide
  simp only [scoreSuburb, hrs, crs_supplied, tp_supplied]
  norm_num [stressGT100, suburbSupplied, blankSuburb, eSupplied]
  rw [round1_eval (z := 260) (by norm_num) (by norm_num)]
  norm_num

/-- The full `GET /recommend` pipeline on the two demo suburbs at income
1000 (solo): ordered by rent stress, so the trendy suburb (stress 30.0,
composite 35.0) comes before the supplied one (stress 31.0, composite
26.0). -/
theorem recommend_demo :
    recommendList [suburbTrendy, suburbSupplied] 1000 none 1 false = [eTrendy, eSupplied] := by
  simp only [recommendList, List.filterMap, score_trendy, score_supplied]
  rw [mergeSort_pair]
  norm_num [stressCmpLE, eTrendy, eSupplied, MAX_RESULTS]

/-- The two comparison orderings of `merge` agree when the comparison
functions agree on the elements merged. -/
theorem merge_congr {α : Type} (le le2 : α → α → Bool) :
    ∀ (l r : List α), (∀ a ∈ l, ∀ b ∈ r, le a b = le2 a b) →
      List.merge l r le = List.merge l r le2 := by
  intro l
  induction l with
  | nil => intro r h; simp
  | cons x xs ihl =>
    intro r
    induction r with
    | nil => intro h; simp
    | cons y ys ihr =>
      intro h
      rw [List.cons_merge_cons, List.cons_merge_cons, h x (by simp) y (by simp)]
      split
      · rw [ihl (y :: ys) (fun a ha b hb => h a (by simp [ha]) b hb)]
      · rw [ihr (fun a ha b hb => h a ha b (by simp [hb]))]

unseal List.mergeSort in
/-- `mergeSort` only compares elements of its input, so two comparison
functions that agree on the input's elements sort it identically. -/
theorem mergeSort_congr {α : Type} (le le2 : α → α → Bool) :
    ∀ (l : List α), (∀ a ∈ l, ∀ b ∈ l, le a b = le2 a b) →
      List.mergeSort l le = List.mergeSort l le2
  | [], _ => by simp
  | [a], _ => by simp
  | a :: b :: xs, h => by
    have hl1 : (List.splitInTwo ⟨a :: b :: xs, rfl⟩).1.1.length < xs.length + 1 + 1 := by
      simp [List.splitInTwo_fst]
      omega
    have hl2 : (List.splitInTwo ⟨a :: b :: xs, rfl⟩).2.1.length < xs.length + 1 + 1 := by
      simp [List.splitInTwo_snd]
      omega
    have hsub1 : ∀ c ∈ (List.splitInTwo ⟨a :: b :: xs, rfl⟩).1.1, c ∈ a :: b :: xs := by
      simp only [List.splitInTwo_fst]
      intro c hc
      exact List.mem_of_mem_take hc
    have hsub2 : ∀ c ∈ (List.splitInTwo ⟨a :: b :: xs, rfl⟩).2.1, c ∈ a :: b :: xs := by
      simp only [List.splitInTwo_snd]
      intro c hc
      exact List.mem_of_mem_drop hc
    rw [List.mergeSort, List.mergeSort]
    rw [mergeSort_congr le le2 (List.splitInTwo ⟨a :: b :: xs, rfl⟩).1.1
      (fun p hp q hq => h p (hsub1 p hp) q (hsub1 q hq))]
    rw [mergeSort_congr le le2 (List.splitInTwo ⟨a :: b :: xs, rfl⟩).2.1
      (fun p hp q hq => h p (hsub2 p hp) q (hsub2 q hq))]
    exact merge_congr le le2 _ _ (fun p hp q hq =>
      h p (hsub1 p (List.mem_mergeSort.mp hp)) q (hsub2 q (List.mem_mergeSort.mp hq)))
termination_by l => l.length

/-- A `filterMap` whose function succeeds on every element is a `map`. -/
theorem filterMap_eq_map_of_some {α β : Type} (f : α → Option β) (g : α → β) :
    ∀ (l : List α), (∀ a ∈ l, f a = some (g a)) → l.filterMap f = l.map g := by
  intro l
  induction l with
  | nil => intro _; rfl
  | cons x xs ih =>
    intro h
    rw [List.filterMap_cons, h x (by simp), List.map_cons, ih (fun a ha => h a (by simp [ha]))]

/-! ### Integer-parameter and non-number request lemmas -/

/-- At an integer bedroom count of at least one, the JavaScript field
read agrees with the integer-domain lookup `rentForBeds`: the field
exists (1–4 and the `"5+"` bucket), so the value is a number or `null`,
never `undefined`. -/
theorem rentAtQ_int (s : Suburb) (k : ℕ) (hk : 1 ≤ k) :
    rentAtQ s ((k : ℕ) : ℚ) = jsRentOfOpt (rentForBeds s k) := by
  by_cases h5 : 5 ≤ k
  · rw [rentAtQ, rentForBeds.eq_def]
    rw [if_pos (by exact_mod_cast h5 : (5 : ℚ) ≤ (k : ℚ)), if_pos h5]
  · have hk4 : k ≤ 4 := by omega
    interval_cases k <;> rw [rentAtQ, rentForBeds.eq_def] <;> norm_num

/-- A bedroom count that is not 1, 2, 3, 4 and not at least 5 names no
field of the record, so the read yields `undefined`. -/
theorem rentAtQ_absent (s : Suburb) (b : ℚ) (h5 : ¬ 5 ≤ b) (h1 : b ≠ 1) (h2 : b ≠ 2)
    (h3 : b ≠ 3) (h4 : b ≠ 4) : rentAtQ s b = .absent := by
  rw [rentAtQ, if_neg h5, if_neg h1, if_neg h2, if_neg h3, if_neg h4]

/-- The JavaScript guardrail is at least one. -/
theorem minBedsForQ_pos (n : ℚ) (share : Bool) : 1 ≤ minBedsForQ n share := by
  rw [minBedsForQ]
  split_ifs <;> norm_num

/-- At an integer sharing count of at least two, the target bedroom
count is itself a positive integer. -/
theorem targetBedsForQ_int (m : ℕ) (share : Bool) (hm : 2 ≤ m) :
    ∃ t : ℕ, 1 ≤ t ∧ targetBedsForQ ((m : ℕ) : ℚ) share = ((t : ℕ) : ℚ) := by
  rw [targetBedsForQ]
  by_cases hc : ((m : ℚ) = 2 ∧ share = true)
  · rw [if_pos hc]
    exact ⟨1, le_refl 1, by norm_num⟩
  · rw [if_neg hc]
    refine ⟨min m 4, by omega, ?_⟩
    rw [Nat.cast_min]
    norm_num

/-- Starting the fallback loop at an integer bedroom count, every field
read happens at an integer count of at least one, so the loop never
breaks on an `undefined` value. -/
theorem rentFallbackQAux_int_not_absent (s : Suburb) (mB : ℚ) (hmB : 1 ≤ mB) :
    ∀ (fuel : ℕ) (c : ℕ) (v : JsRent) (bu : ℚ),
      rentFallbackQAux s mB ((c : ℕ) : ℚ) fuel = some (v, bu) → v ≠ JsRent.absent := by
  intro fuel
  induction fuel with
  | zero =>
    intro c v bu h
    simp [rentFallbackQAux] at h
  | succ f ih =>
    intro c v bu h
    rw [rentFallbackQAux] at h
    split at h
    · simp at h
    · rename_i hge
      have hc1 : 1 ≤ c := by
        by_contra hc
        have hc0 : c = 0 := by omega
        subst hc0
        rw [not_lt] at hge
        norm_num at hge
        linarith
      rw [rentAtQ_int s c hc1] at h
      cases hv : rentForBeds s c with
      | none =>
        rw [hv] at h
        simp only [jsRentOfOpt] at h
        have hcast : ((c : ℕ) : ℚ) - 1 = (((c - 1 : ℕ) : ℕ) : ℚ) := by
          rw [Nat.cast_sub hc1]
          norm_num
        rw [hcast] at h
        exact ih (c - 1) v bu h
      | some r =>
        rw [hv] at h
        simp only [jsRentOfOpt] at h
        have hp : (JsRent.num r, ((c : ℕ) : ℚ)) = (v, bu) := Option.some.inj h
        have hveq : JsRent.num r = v := congrArg Prod.fst hp
        rw [← hveq]
        simp

/-- `rentFallbackQ` version of the previous lemma. -/
theorem rentFallbackQ_int_not_absent (s : Suburb) (mB : ℚ) (hmB : 1 ≤ mB) (t : ℕ)
    {v : JsRent} {bu : ℚ} (h : rentFallbackQ s mB ((t : ℕ) : ℚ) = some (v, bu)) :
    v ≠ JsRent.absent := by
  rw [rentFallbackQ] at h
  exact rentFallbackQAux_int_not_absent s mB hmB _ t v bu h

/-- When the starting bedroom count itself reads `undefined`, the loop
breaks immediately and returns that `undefined` value. -/
theorem rentFallbackQ_absent_first (s : Suburb) (mB t : ℚ) (hle : mB ≤ t)
    (hat : rentAtQ s t = .absent) : rentFallbackQ s mB t = some (.absent, t) := by
  rw [rentFallbackQ]
  have h0 : (0 : ℤ) ≤ ⌈t - mB⌉ := Int.ceil_nonneg (by linarith)
  have hf : (⌈t - mB⌉ + 1).toNat = (⌈t - mB⌉ + 1).toNat - 1 + 1 := by omega
  rw [hf, rentFallbackQAux, if_neg (not_lt.mpr hle), hat]

/-- With an integer sharing count and an integer (or absent) bedroom
request — every request the spec describes — a resolved rent record
always carries a genuine number as its per-person rent. -/
theorem resolveQ_int_perPerson {s : Suburb} {bedrooms : Option ℚ} {n : ℚ} {share : Bool}
    (hb : bedrooms = none ∨ ∃ k : ℕ, bedrooms = some ((k : ℕ) : ℚ))
    (hn : ∃ m : ℕ, n = ((m : ℕ) : ℚ)) {res : ResolvedRentQ}
    (h : resolveSharedRentQ s bedrooms n share = some res) :
    ∃ r, res.perPersonRent = some r := by
  rw [resolveSharedRentQ.eq_def] at h
  split at h
  · rcases hb with rfl | ⟨k, rfl⟩
    · simp only at h
      cases ho : s.median_rent_overall with
      | none =>
        rw [ho] at h
        simp [jsRentOfOpt] at h
      | some r0 =>
        rw [ho] at h
        simp only [jsRentOfOpt] at h
        exact ⟨r0, by rw [← Option.some.inj h]⟩
    · simp only at h
      by_cases hk : ((k : ℕ) : ℚ) = 0
      · rw [if_pos hk] at h
        cases ho : s.median_rent_overall with
        | none =>
          rw [ho] at h
          simp [jsRentOfOpt] at h
        | some r0 =>
          rw [ho] at h
          simp only [jsRentOfOpt] at h
          exact ⟨r0, by rw [← Option.some.inj h]⟩
      · rw [if_neg hk] at h
        have hk1 : 1 ≤ k := by
          by_contra hc
          have hk0 : k = 0 := by omega
          subst hk0
          exact hk (by norm_num)
        rw [rentAtQ_int s k hk1] at h
        cases hv : rentForBeds s k with
        | none =>
          rw [hv] at h
          simp [jsRentOfOpt] at h
        | some r0 =>
          rw [hv] at h
          simp only [jsRentOfOpt] at h
          exact ⟨r0, by rw [← Option.some.inj h]⟩
  · rename_i hgt
    rcases hn with ⟨m, rfl⟩
    have hm2 : 2 ≤ m := by
      by_contra hc
      push_neg at hc
      have hm1 : m ≤ 1 := by omega
      exact hgt (by exact_mod_cast hm1)
    rcases targetBedsForQ_int m share hm2 with ⟨t, ht1, ht⟩
    simp only at h
    rw [ht] at h
    rcases hrf : rentFallbackQ s (minBedsForQ ((m : ℕ) : ℚ) share) ((t : ℕ) : ℚ)
      with _ | ⟨v, bu⟩
    · rw [hrf] at h
      simp at h
    · rw [hrf] at h
      have hv := rentFallbackQ_int_not_absent s _ (minBedsForQ_pos _ share) t hrf
      cases v with
      | jsNull => simp at h
      | absent => exact absurd rfl hv
      | num r =>
        simp only at h
        exact ⟨_, by rw [← Option.some.inj h]⟩

/-- The percentage computed from a genuine numeric rent is a number. -/
theorem calcQ_percentage_some (income r : ℚ) :
    ∃ p, (calculateRentStressQ income (some r)).percentage = some p := by
  rw [calculateRentStressQ]
  split_ifs
  · exact ⟨100, rfl⟩
  · exact ⟨_, rfl⟩

/-- Whatever the scoring loop emits carries the suburb's postcode, a
percentage that passed the `> 100` filter, and the stress computed from
the resolved per-person rent. -/
theorem scoreQ_prop {income : ℚ} {bedrooms : Option ℚ} {n : ℚ} {share : Bool}
    {s : Suburb} {e : ScoredSuburb} (h : scoreSuburb income bedrooms n share s = some e) :
    e.postcode = s.postcode ∧ stressGT100 e.rent_stress_pct = false ∧
    ∃ res, resolveSharedRentQ s bedrooms n share = some res ∧
      e.rent_stress_pct = (calculateRentStressQ income res.perPersonRent).percentage := by
  rw [scoreSuburb.eq_def] at h
  rcases hv : resolveSharedRentQ s bedrooms n share with _ | res
  · rw [hv] at h
    simp at h
  · rw [hv] at h
    simp only at h
    by_cases hp : stressGT100 (calculateRentStressQ income res.perPersonRent).percentage = true
    · rw [if_pos hp] at h
      simp at h
    · rw [if_neg hp] at h
      have he := Option.some.inj h
      subst he
      exact ⟨rfl, by simpa using hp, res, rfl, rfl⟩

/-- A percentage that passed the filter is, when it is a number, at most
100. -/
theorem stressGT100_false {o : Option ℚ} (h : stressGT100 o = false) :
    ∀ v ∈ o, v ≤ 100 := by
  intro v hv
  rw [Option.mem_def] at hv
  subst hv
  simp only [stressGT100, decide_eq_false_iff_not, not_lt] at h
  exact h

/-- A suburb with a resolved rent whose numeric stress is at most 100 is
emitted by the scoring loop. -/
theorem scoreQ_of_stress_le {income : ℚ} {bedrooms : Option ℚ} {n : ℚ} {share : Bool}
    {s : Suburb} {res : ResolvedRentQ} {v : ℚ}
    (hres : resolveSharedRentQ s bedrooms n share = some res)
    (hv : (calculateRentStressQ income res.perPersonRent).percentage = some v)
    (hle : v ≤ 100) :
    ∃ e, scoreSuburb income bedrooms n share s = some e ∧ e.postcode = s.postcode := by
  rw [scoreSuburb.eq_def, hres]
  simp only
  have hfilter : stressGT100 (calculateRentStressQ income res.perPersonRent).percentage
      = false := by
    rw [hv]
    simp only [stressGT100, decide_eq_false_iff_not, not_lt]
    exact hle
  rw [if_neg (by simp [hfilter])]
  exact ⟨_, rfl, rfl⟩

/-- Under integer request parameters every scored entry has a numeric
rent-stress percentage. -/
theorem scoreQ_stress_some {income : ℚ} {bedrooms : Option ℚ} {n : ℚ} {share : Bool}
    (hb : bedrooms = none ∨ ∃ k : ℕ, bedrooms = some ((k : ℕ) : ℚ))
    (hn : ∃ m : ℕ, n = ((m : ℕ) : ℚ)) {s : Suburb} {e : ScoredSuburb}
    (h : scoreSuburb income bedrooms n share s = some e) :
    ∃ v, e.rent_stress_pct = some v := by
  rcases (scoreQ_prop h).2.2 with ⟨res, hres, hstress⟩
  rcases resolveQ_int_perPerson hb hn hres with ⟨r, hr⟩
  rw [hstress, hr]
  exact calcQ_percentage_some income r

/-- A validated fractional solo bedroom request (for example
`bedrooms=2.5`) reads an absent field: the record resolves with an
`undefined` total and `NaN` per-person rent for every suburb. -/
theorem resolveQ_solo_frac (s : Suburb) (b n : ℚ) (share : Bool) (hn : n ≤ 1)
    (hb0 : b ≠ 0) (h5 : ¬ 5 ≤ b) (h1 : b ≠ 1) (h2 : b ≠ 2) (h3 : b ≠ 3) (h4 : b ≠ 4) :
    resolveSharedRentQ s (some b) n share = some ⟨none, none, false, b⟩ := by
  rw [resolveSharedRentQ.eq_def, if_pos hn]
  simp only
  rw [if_neg hb0, rentAtQ_absent s b h5 h1 h2 h3 h4]
  rfl

/-- A fractional sharing count in `(1, 4)` (for example `sharing=1.5`)
makes the fallback loop start at a fractional bedroom count, which reads
an absent field at once: the record resolves with `NaN` for every
suburb. -/
theorem resolveQ_shared_frac (s : Suburb) (bedrooms : Option ℚ) (n : ℚ) (share : Bool)
    (hn1 : 1 < n) (hn4 : n < 4) (hn2 : n ≠ 2) (hn3 : n ≠ 3) :
    resolveSharedRentQ s bedrooms n share = some ⟨none, none, false, n⟩ := by
  have htgt : targetBedsForQ n share = n := by
    rw [targetBedsForQ, if_neg (fun hc => hn2 hc.1)]
    exact min_eq_left (le_of_lt hn4)
  have hat : rentAtQ s n = .absent :=
    rentAtQ_absent s n (by linarith) (by linarith) hn2 hn3 (by linarith)
  have hrf : rentFallbackQ s (minBedsForQ n share) (targetBedsForQ n share)
      = some (.absent, n) := by
    rw [htgt]
    apply rentFallbackQ_absent_first s _ n ?_ hat
    rw [minBedsForQ]
    split_ifs with hc1 hc2 hc3 <;> linarith
  rw [resolveSharedRentQ.eq_def, if_neg (by linarith : ¬ n ≤ 1)]
  simp only
  rw [hrf]
  simp [htgt]

/-- A suburb whose resolved rent is a non-number is scored as the `NaN`
record: the `NaN > 100` filter keeps it. -/
theorem scoreQ_nan {income : ℚ} (bedrooms : Option ℚ) (n : ℚ) (share : Bool) (s : Suburb)
    (bu : ℚ) (hinc : 0 < income)
    (hres : resolveSharedRentQ s bedrooms n share = some ⟨none, none, false, bu⟩) :
    scoreSuburb income bedrooms n share s = some (nanScored n s) := by
  rw [scoreSuburb.eq_def, hres]
  simp only
  have hcalc : calculateRentStressQ income none = ⟨none, .severe⟩ := by
    rw [calculateRentStressQ, if_neg (not_le.mpr hinc)]
  rw [hcalc]
  simp [stressGT100, nanScored]

/-- Requests whose resolved rent is a non-number for every suburb keep
every suburb: each response entry has `NaN` stress, and (within the
result cap) every suburb of the table appears. -/
theorem recommend_nan (subs : List Suburb) (income : ℚ) (bedrooms : Option ℚ) (n : ℚ)
    (share : Bool) (bu : ℚ) (hinc : 0 < income)
    (hres : ∀ s : Suburb, resolveSharedRentQ s bedrooms n share = some ⟨none, none, false, bu⟩) :
    (∀ e ∈ recommendList subs income bedrooms n share, e.rent_stress_pct = none)
  ∧ (subs.length ≤ MAX_RESULTS → ∀ s ∈ subs,
      ∃ e ∈ recommendList subs income bedrooms n share,
        e.postcode = s.postcode ∧ e.rent_stress_pct = none) := by
  have hmap : subs.filterMap (scoreSuburb income bedrooms n share) = subs.map (nanScored n) :=
    filterMap_eq_map_of_some _ _ subs (fun s _ => scoreQ_nan bedrooms n share s bu hinc (hres s))
  constructor
  · intro e he
    have h1 : e ∈ List.mergeSort
        (subs.filterMap (scoreSuburb income bedrooms n share)) stressCmpLE :=
      List.mem_of_mem_take he
    rw [List.mem_mergeSort, hmap, List.mem_map] at h1
    rcases h1 with ⟨s, _, rfl⟩
    rfl
  · intro hlen s hs
    have hlen2 : (List.mergeSort
        (subs.filterMap (scoreSuburb income bedrooms n share)) stressCmpLE).length
        ≤ MAX_RESULTS := by
      rw [List.length_mergeSort, hmap, List.length_map]
      exact hlen
    have htake : recommendList subs income bedrooms n share
        = List.mergeSort (subs.filterMap (scoreSuburb income bedrooms n share)) stressCmpLE := by
      rw [recommendList]
      exact List.take_of_length_le hlen2
    refine ⟨nanScored n s, ?_, rfl, rfl⟩
    rw [htake, List.mem_mergeSort, hmap, List.mem_map]
    exact ⟨s, hs, rfl⟩

/-! ### Claim theorems -/

/-- C1 (amended): for every request whose sharing count is an integer
and whose bedroom parameter is an integer or absent — every request the
spec describes — the suburb list returned by `GET /recommend` is sorted
ascending by `rent_stress_pct`, the code's default API ordering
(`scored.sort((a, b) => a.rent_stress_pct - b.rent_stress_pct)`): any two
adjacent entries are nondecreasing in rent-stress percentage.  The
ordering claimed for the composite `affordability_score` does not hold —
see the counterexample.  For a validated fractional solo bedroom request
(for example `bedrooms=2.5`) every rent resolves to `undefined`, every
entry's `rent_stress_pct` is `NaN`, the comparator returns `NaN`
(treated as 0), and no ordering by rent stress or composite score is
meaningful; a fractional sharing count in `(1, 4)` (for example
`sharing=1.5`) behaves the same way. -/
theorem C1_recommend_sorted_by_rent_stress (subs : List Suburb) (income : ℚ)
    (bedrooms : Option ℚ) (n : ℚ) (share : Bool) :
    ((bedrooms = none ∨ ∃ k : ℕ, bedrooms = some ((k : ℕ) : ℚ)) →
      (∃ m : ℕ, n = ((m : ℕ) : ℚ)) →
      List.Chain' (fun a b => ∀ x ∈ a.rent_stress_pct, ∀ y ∈ b.rent_stress_pct, x ≤ y)
        (recommendList subs income bedrooms n share))
  ∧ (∀ b : ℚ, 0 < income → n ≤ 1 → bedrooms = some b → b ≠ 0 → ¬ 5 ≤ b →
      b ≠ 1 → b ≠ 2 → b ≠ 3 → b ≠ 4 →
      ∀ e ∈ recommendList subs income bedrooms n share, e.rent_stress_pct = none)
  ∧ (0 < income → 1 < n → n < 4 → n ≠ 2 → n ≠ 3 →
      ∀ e ∈ recommendList subs income bedrooms n share, e.rent_stress_pct = none) := by
  refine ⟨?_, ?_, ?_⟩
  · intro hb hn
    have hsome : ∀ e ∈ subs.filterMap (scoreSuburb income bedrooms n share),
        ∃ v, e.rent_stress_pct = some v := by
      intro e he
      rcases List.mem_filterMap.mp he with ⟨s2, _, hs2⟩
      exact scoreQ_stress_some hb hn hs2
    have hcong : List.mergeSort (subs.filterMap (scoreSuburb income bedrooms n share))
          stressCmpLE
        = List.mergeSort (subs.filterMap (scoreSuburb income bedrooms n share))
            (fun a b => decide (a.rent_stress_pct.getD 0 ≤ b.rent_stress_pct.getD 0)) := by
      apply mergeSort_congr
      intro a ha b hb2
      rcases hsome a ha with ⟨x, hx⟩
      rcases hsome b hb2 with ⟨y, hy⟩
      simp [stressCmpLE, hx, hy]
    have hs := @List.sorted_mergeSort ScoredSuburb
      (fun a b => decide (a.rent_stress_pct.getD 0 ≤ b.rent_stress_pct.getD 0))
      (fun a b c h1 h2 => by
        simp only [decide_eq_true_eq] at h1 h2 ⊢
        exact le_trans h1 h2)
      (fun a b => by
        simp only [Bool.or_eq_true, decide_eq_true_eq]
        exact le_total _ _)
      (subs.filterMap (scoreSuburb income bedrooms n share))
    rw [← hcong] at hs
    have hp : (List.mergeSort (subs.filterMap (scoreSuburb income bedrooms n share))
        stressCmpLE).Pairwise
        (fun a b => ∀ x ∈ a.rent_stress_pct, ∀ y ∈ b.rent_stress_pct, x ≤ y) := by
      refine hs.imp_of_mem ?_
      intro a b ha hb3 hab
      intro x hx y hy
      rw [Option.mem_def] at hx hy
      simp only [decide_eq_true_eq, hx, hy, Option.getD_some] at hab
      exact hab
    have ht := hp.sublist (List.take_sublist MAX_RESULTS _)
    exact ht.chain'
  · intro b hinc hn1 hbed hb0 hb5 hb1 hb2 hb3 hb4
    subst hbed
    exact (recommend_nan subs income (some b) n share b hinc
      (fun s => resolveQ_solo_frac s b n share hn1 hb0 hb5 hb1 hb2 hb3 hb4)).1
  · intro hinc hn1 hn4 hn2 hn3
    exact (recommend_nan subs income bedrooms n share n hinc
      (fun s => resolveQ_shared_frac s bedrooms n share hn1 hn4 hn2 hn3)).1

/-- C1 counterexample: at income 1000 a week, solo, the two demo suburbs
come back ordered by rent stress (30.0 then 31.0) while their composite
affordability scores are 35.0 then 26.0 — adjacent entries are not
ascending in the composite score, refuting the claimed ordering. -/
theorem C1_composite_order_counterexample :
    ¬ List.Chain' (fun a b => ∀ x ∈ a.affordability_score, ∀ y ∈ b.affordability_score, x ≤ y)
      (recommendList [suburbTrendy, suburbSupplied] 1000 none 1 false) := by
  rw [recommend_demo]
  intro h
  have h2 := (List.chain'_cons.mp h).1
  have h3 := h2 35 (by norm_num [eTrendy]) 26 (by norm_num [eSupplied])
  norm_num at h3

/-- C2: for positive weekly income and rent, `calculateRentStress` returns
percentage `round(rent / income * 1000) / 10` (one decimal) and its rating
follows the four tiers exactly: percentage < 25 is comfortable,
25 ≤ percentage ≤ 30 is manageable (both boundaries inclusive),
30 < percentage ≤ 40 is stressed, percentage > 40 is severe. -/
theorem C2_calculateRentStress_tiers (income rent : ℚ) (hi : 0 < income) (_hr : 0 < rent) :
    (calculateRentStress income rent).percentage = (jsRound (rent / income * 1000) : ℚ) / 10
  ∧ ((calculateRentStress income rent).percentage < 25 →
      (calculateRentStress income rent).rating = .comfortable)
  ∧ (25 ≤ (calculateRentStress income rent).percentage →
      (calculateRentStress income rent).percentage ≤ 30 →
      (calculateRentStress income rent).rating = .manageable)
  ∧ (30 < (calculateRentStress income rent).percentage →
      (calculateRentStress income rent).percentage ≤ 40 →
      (calculateRentStress income rent).rating = .stressed)
  ∧ (40 < (calculateRentStress income rent).percentage →
      (calculateRentStress income rent).rating = .severe) := by
  simp only [calculateRentStress, if_neg (not_le.mpr hi)]
  refine ⟨by trivial, ?_, ?_, ?_, ?_⟩ <;> intros <;>
    simp only [getRentStressRating] <;> split_ifs <;> first | rfl | linarith

/-- C2 witness: income 1000 and rent 251 a week give percentage 25.1 and
exercise the tier conjunction at a concrete input. -/
theorem C2_witness :
    (0 < (1000:ℚ)) ∧ (0 < (251:ℚ)) ∧
    ((calculateRentStress 1000 251).percentage = (jsRound ((251:ℚ) / 1000 * 1000) : ℚ) / 10
  ∧ ((calculateRentStress 1000 251).percentage < 25 →
      (calculateRentStress 1000 251).rating = .comfortable)
  ∧ (25 ≤ (calculateRentStress 1000 251).percentage →
      (calculateRentStress 1000 251).percentage ≤ 30 →
      (calculateRentStress 1000 251).rating = .manageable)
  ∧ (30 < (calculateRentStress 1000 251).percentage →
      (calculateRentStress 1000 251).percentage ≤ 40 →
      (calculateRentStress 1000 251).rating = .stressed)
  ∧ (40 < (calculateRentStress 1000 251).percentage →
      (calculateRentStress 1000 251).rating = .severe)) :=
  ⟨by norm_num, by norm_num, C2_calculateRentStress_tiers 1000 251 (by norm_num) (by norm_num)⟩

/-- C3: for non-positive weekly income (in particular zero) and any
positive rent, `calculateRentStress` short-circuits to percentage 100 and
rating severe, never reaching the division. -/
theorem C3_calculateRentStress_nonpositive_income (income rent : ℚ)
    (hi : income ≤ 0) (_hr : 0 < rent) :
    calculateRentStress income rent = ⟨100, .severe⟩ := by
  simp [calculateRentStress, if_pos hi]

/-- C3 witness: income 0 and rent 500 a week. -/
theorem C3_witness :
    ((0:ℚ) ≤ 0) ∧ (0 < (500:ℚ)) ∧ calculateRentStress 0 500 = ⟨100, .severe⟩ :=
  ⟨le_refl 0, by norm_num, C3_calculateRentStress_nonpositive_income 0 500 (le_refl 0) (by norm_num)⟩

/-- The minimum-bedroom guardrail is always at least one. -/
theorem minBedsFor_pos (n : ℕ) (share : Bool) : 1 ≤ minBedsFor n share := by
  simp only [minBedsFor]
  split_ifs <;> omega

/-- The fallback loop finds nothing exactly when every bedroom count from
the guardrail up to the starting count has a null rent. -/
theorem rentFallback_none_iff (s : Suburb) (minB : ℕ) (hm : 1 ≤ minB) (t : ℕ) :
    rentFallback s minB t = none ↔ (∀ k, minB ≤ k → k ≤ t → rentForBeds s k = none) := by
  induction t with
  | zero =>
    simp only [rentFallback, true_iff]
    intro k hk1 hk2
    omega
  | succ t ih =>
    rw [rentFallback]
    split
    · rename_i h
      simp only [true_iff]
      intro k hk1 hk2
      omega
    · rename_i h
      cases hv : rentForBeds s (t + 1) with
      | some v =>
        constructor
        · intro he
          simp at he
        · intro hall
          have h5 := hall (t + 1) (by omega) (by omega)
          rw [hv] at h5
          simp at h5
      | none =>
        rw [ih]
        constructor
        · intro hall k hk1 hk2
          rcases Nat.lt_or_ge k (t + 1) with hk | hk
          · exact hall k hk1 (by omega)
          · have hke : k = t + 1 := by omega
            rw [hke, hv]
        · intro hall k hk1 hk2
          exact hall k hk1 (by omega)

/-- The fallback loop returns the rent of the largest bedroom count, at or
below the starting count and at or above the guardrail, whose rent is
non-null. -/
theorem rentFallback_some_iff (s : Suburb) (minB : ℕ) (hm : 1 ≤ minB) (r : ℚ) (b : ℕ)
    (t : ℕ) :
    rentFallback s minB t = some (r, b) ↔
      (minB ≤ b ∧ b ≤ t ∧ rentForBeds s b = some r ∧
        ∀ k, b < k → k ≤ t → rentForBeds s k = none) := by
  induction t with
  | zero =>
    simp only [rentFallback, reduceCtorEq, false_iff, not_and]
    intro h1 h2
    omega
  | succ t ih =>
    rw [rentFallback]
    split
    · rename_i h
      simp only [reduceCtorEq, false_iff, not_and]
      intro h1 h2
      omega
    · rename_i h
      cases hv : rentForBeds s (t + 1) with
      | some v =>
        constructor
        · intro he
          have h1 : (v, t + 1) = (r, b) := Option.some.inj he
          have hvr : v = r := congrArg Prod.fst h1
          have hbb : t + 1 = b := congrArg Prod.snd h1
          subst hvr
          subst hbb
          refine ⟨by omega, le_refl _, hv, ?_⟩
          intro k hk1 hk2
          omega
        · rintro ⟨h1, h2, h3, h4⟩
          rcases Nat.lt_or_ge b (t + 1) with hb | hb
          · have h5 := h4 (t + 1) (by omega) (by omega)
            rw [hv] at h5
            simp at h5
          · have hbe : b = t + 1 := by omega
            subst hbe
            rw [hv] at h3
            rw [Option.some.inj h3]
      | none =>
        rw [ih]
        constructor
        · rintro ⟨h1, h2, h3, h4⟩
          refine ⟨h1, by omega, h3, ?_⟩
          intro k hk1 hk2
          rcases Nat.lt_or_ge k (t + 1) with hk | hk
          · exact h4 k hk1 (by omega)
          · have hke : k = t + 1 := by omega
            rw [hke, hv]
        · rintro ⟨h1, h2, h3, h4⟩
          have hbne : b ≠ t + 1 := by
            intro hbe
            subst hbe
            rw [hv] at h3
            simp at h3
          exact ⟨h1, by omega, h3, fun k hk1 hk2 => h4 k hk1 (by omega)⟩

/-- C4: `resolveSharedRent` follows the shared-living policy.  Group size 1
returns the raw rent for the requested bedroom count (overall median when
unspecified) with no estimation flag, failing when that figure is null.
Group size at least 2 targets `min(size, 4)` bedrooms — 1 for a
bedroom-sharing pair — and any returned record uses the largest bedroom
count between the guardrail and the target whose rent is non-null, is
flagged estimated exactly when that differs from the target, and carries
per-person rent `round(total / size, 1)`; it fails exactly when every
count in that range is null.  The guardrail floors are 1 for a
bedroom-sharing pair, 2 for 3-person groups and 3 for 4-person groups. -/
theorem C4_resolveSharedRent_policy (s : Suburb) (ub : Option ℕ) (n : ℕ) (share : Bool) :
    (n = 1 → (ub = none ∨ ∃ b, ub = some b ∧ 1 ≤ b) →
      resolveSharedRent s ub n share =
        Option.map (fun r => ⟨r, r, false, ub.getD 0⟩)
          (match ub with
           | none => s.median_rent_overall
           | some b => rentForBeds s b))
  ∧ (2 ≤ n → ∀ r, resolveSharedRent s ub n share = some r →
      minBedsFor n share ≤ r.bedsUsed ∧ r.bedsUsed ≤ targetBedsFor n share
      ∧ rentForBeds s r.bedsUsed = some r.totalRent
      ∧ (∀ k, r.bedsUsed < k → k ≤ targetBedsFor n share → rentForBeds s k = none)
      ∧ r.rentEstimated = (r.bedsUsed != targetBedsFor n share)
      ∧ r.perPersonRent = round1 (r.totalRent / (n : ℚ)))
  ∧ (2 ≤ n → (resolveSharedRent s ub n share = none ↔
      ∀ k, minBedsFor n share ≤ k → k ≤ targetBedsFor n share → rentForBeds s k = none))
  ∧ targetBedsFor 2 true = 1
  ∧ (¬(n = 2 ∧ share = true) → targetBedsFor n share = min n 4)
  ∧ minBedsFor 2 true = 1 ∧ minBedsFor 3 share = 2 ∧ minBedsFor 4 share = 3 := by
  refine ⟨?_, ?_, ?_, by simp [targetBedsFor], ?_, by simp [minBedsFor],
    by simp [minBedsFor], by simp [minBedsFor]⟩
  · intro hn hb
    subst hn
    rcases hb with hb | ⟨b, hb, hb1⟩
    · subst hb
      simp only [resolveSharedRent, if_pos (le_refl 1)]
      cases s.median_rent_overall <;> rfl
    · subst hb
      simp only [resolveSharedRent, if_pos (le_refl 1), if_neg (by omega : ¬ b = 0)]
      cases rentForBeds s b <;> rfl
  · intro hn r hr
    rw [resolveSharedRent.eq_def, if_neg (by omega : ¬ n ≤ 1)] at hr
    simp only at hr
    rcases hv : rentFallback s (minBedsFor n share) (targetBedsFor n share) with _ | ⟨r0, b0⟩
    · simp only [hv] at hr
      simp at hr
    · simp only [hv] at hr
      have h1 := (rentFallback_some_iff s _ (minBedsFor_pos n share) r0 b0 _).mp hv
      have hre : r = ⟨r0, round1 (r0 / (n : ℚ)), b0 != targetBedsFor n share, b0⟩ :=
        (Option.some.inj hr).symm
      subst hre
      exact ⟨h1.1, h1.2.1, h1.2.2.1, h1.2.2.2, rfl, rfl⟩
  · intro hn
    rw [resolveSharedRent.eq_def, if_neg (by omega : ¬ n ≤ 1)]
    simp only
    rcases hv : rentFallback s (minBedsFor n share) (targetBedsFor n share) with _ | ⟨r0, b0⟩
    · simp only [hv, true_iff]
      exact (rentFallback_none_iff s _ (minBedsFor_pos n share) _).mp hv
    · simp only [hv]
      constructor
      · intro he
        simp at he
      · intro hall
        have h6 := (rentFallback_none_iff s _ (minBedsFor_pos n share)
          (targetBedsFor n share)).mpr hall
        rw [hv] at h6
        simp at h6
  · intro hns
    simp only [targetBedsFor]
    rw [if_neg]
    intro hc
    exact hns ⟨hc.1, hc.2⟩

/-- C5 (amended): every numeric `rent_stress_pct` in a `GET /recommend`
response is at most 100; for requests with an integer sharing count and
an integer-or-absent bedroom parameter, on a table of at most
`MAX_RESULTS` suburbs (the deployed table has 331 postcodes against a
cap of 500), a postcode appears in the response exactly when some suburb
with that postcode resolves a rent whose per-person rent-stress
percentage is a number at most 100.  For a validated fractional bedroom
request (for example `bedrooms=2.5`), or a fractional sharing count in
`(1, 4)`, the `undefined` field read slips past the `rent === null`
check, `NaN > 100` is false, and every suburb of the table appears with
`NaN` rent stress. -/
theorem C5_recommend_membership (subs : List Suburb) (income : ℚ) (bedrooms : Option ℚ)
    (n : ℚ) (share : Bool) :
    (∀ e ∈ recommendList subs income bedrooms n share, ∀ v ∈ e.rent_stress_pct, v ≤ 100)
  ∧ ((bedrooms = none ∨ ∃ k : ℕ, bedrooms = some ((k : ℕ) : ℚ)) →
      (∃ m : ℕ, n = ((m : ℕ) : ℚ)) → subs.length ≤ MAX_RESULTS →
      ∀ s ∈ subs,
        ((∃ e ∈ recommendList subs income bedrooms n share, e.postcode = s.postcode) ↔
          ∃ s2 ∈ subs, s2.postcode = s.postcode ∧
            ∃ res, resolveSharedRentQ s2 bedrooms n share = some res ∧
              ∃ v, (calculateRentStressQ income res.perPersonRent).percentage = some v ∧
                v ≤ 100))
  ∧ (∀ b : ℚ, 0 < income → n ≤ 1 → bedrooms = some b → b ≠ 0 → ¬ 5 ≤ b →
      b ≠ 1 → b ≠ 2 → b ≠ 3 → b ≠ 4 → subs.length ≤ MAX_RESULTS →
      ∀ s ∈ subs, ∃ e ∈ recommendList subs income bedrooms n share,
        e.postcode = s.postcode ∧ e.rent_stress_pct = none)
  ∧ (0 < income → 1 < n → n < 4 → n ≠ 2 → n ≠ 3 → subs.length ≤ MAX_RESULTS →
      ∀ s ∈ subs, ∃ e ∈ recommendList subs income bedrooms n share,
        e.postcode = s.postcode ∧ e.rent_stress_pct = none) := by
  refine ⟨?_, ?_, ?_, ?_⟩
  · intro e he v hv
    have h1 : e ∈ List.mergeSort
        (subs.filterMap (scoreSuburb income bedrooms n share)) stressCmpLE :=
      List.mem_of_mem_take he
    rw [List.mem_mergeSort, List.mem_filterMap] at h1
    rcases h1 with ⟨s2, _, hs2⟩
    exact stressGT100_false (scoreQ_prop hs2).2.1 v hv
  · intro hb hn hlen s hs
    have htake : recommendList subs income bedrooms n share
        = List.mergeSort (subs.filterMap (scoreSuburb income bedrooms n share)) stressCmpLE := by
      rw [recommendList]
      apply List.take_of_length_le
      rw [List.length_mergeSort]
      exact le_trans (List.length_filterMap_le _ subs) hlen
    have hmem : ∀ e, e ∈ recommendList subs income bedrooms n share ↔
        ∃ s2, s2 ∈ subs ∧ scoreSuburb income bedrooms n share s2 = some e := by
      intro e
      rw [htake, List.mem_mergeSort, List.mem_filterMap]
    constructor
    · rintro ⟨e, he, hpc⟩
      rcases (hmem e).mp he with ⟨s2, hs2m, hs2⟩
      rcases scoreQ_prop hs2 with ⟨hpc2, hfil, res, hres, hstress⟩
      rcases resolveQ_int_perPerson hb hn hres with ⟨r, hr⟩
      rcases calcQ_percentage_some income r with ⟨v, hv⟩
      rw [← hr] at hv
      refine ⟨s2, hs2m, by rw [← hpc, hpc2], res, hres, v, hv, ?_⟩
      apply stressGT100_false hfil
      rw [hstress, hv]
      rfl
    · rintro ⟨s2, hs2m, hpc2, res, hres, v, hv, hle⟩
      rcases scoreQ_of_stress_le hres hv hle with ⟨e, hse, hepc⟩
      exact ⟨e, (hmem e).mpr ⟨s2, hs2m, hse⟩, by rw [hepc, hpc2]⟩
  · intro b hinc hn1 hbed hb0 hb5 hb1 hb2 hb3 hb4 hlen s hs
    subst hbed
    exact (recommend_nan subs income (some b) n share b hinc
      (fun s2 => resolveQ_solo_frac s2 b n share hn1 hb0 hb5 hb1 hb2 hb3 hb4)).2 hlen s hs
  · intro hinc hn1 hn4 hn2 hn3 hlen s hs
    exact (recommend_nan subs income bedrooms n share n hinc
      (fun s2 => resolveQ_shared_frac s2 bedrooms n share hn1 hn4 hn2 hn3)).2 hlen s hs

/-- C5 counterexample: the validated request `income=1000&bedrooms=2.5`
reads the absent field `median_rent_2.5bed`; on a one-suburb table the
postcode appears in the response even though no valid rent figure is
resolvable, and its `rent_stress_pct` is `NaN` (`none`) rather than a
number at most 100 — refuting both directions of the claim. -/
theorem C5_fractional_counterexample :
    (recommendList [suburbTrendy] 1000 (some (5 / 2)) 1 false).map
      (fun e => (e.postcode, e.rent_stress_pct)) = [("2010", none)] := by
  have hres : resolveSharedRentQ suburbTrendy (some (5 / 2)) 1 false
      = some ⟨none, none, false, 5 / 2⟩ :=
    resolveQ_solo_frac suburbTrendy (5 / 2) 1 false (le_refl 1) (by norm_num) (by norm_num)
      (by norm_num) (by norm_num) (by norm_num) (by norm_num)
  have hscore : scoreSuburb 1000 (some (5 / 2)) 1 false suburbTrendy
      = some (nanScored 1 suburbTrendy) :=
    scoreQ_nan (some (5 / 2)) 1 false suburbTrendy (5 / 2) (by norm_num) hres
  have hfm : ([suburbTrendy] : List Suburb).filterMap (scoreSuburb 1000 (some (5 / 2)) 1 false)
      = [nanScored 1 suburbTrendy] := by
    simp [List.filterMap_cons, hscore]
  rw [recommendList, hfm, List.mergeSort_singleton]
  simp [nanScored, suburbTrendy, blankSuburb, MAX_RESULTS]

/-- C6 counterexample: an income parameter parsing to 0 — a non-negative
number the claim says must pass — is rejected by the validation prelude
(the code requires strictly positive income), so no ranked list is
produced. -/
theorem C6_zero_income_counterexample : validateRecommend (.num 0) .missing = none := by
  simp [validateRecommend]

/-- C6 (amended): `GET /recommend` responds 400 exactly when the income
parameter is missing, unparseable, or parses to a non-positive number
(zero included), or when the bedrooms parameter is present and is
unparseable or outside 1 to 5.  Every strictly positive income passes. -/
theorem C6_validate_400_iff (income bedrooms : ParamVal) :
    validateRecommend income bedrooms = none ↔
      (income = .missing ∨ income = .nan ∨ (∃ q, income = .num q ∧ q ≤ 0)
       ∨ bedrooms = .nan ∨ (∃ b, bedrooms = .num b ∧ (b < 1 ∨ 5 < b))) := by
  cases income with
  | missing => simp [validateRecommend]
  | nan => simp [validateRecommend]
  | num q =>
    by_cases hq : q ≤ 0
    · simp [validateRecommend, hq]
    · cases bedrooms with
      | missing => simp [validateRecommend, hq]
      | nan => simp [validateRecommend, hq]
      | num b =>
        by_cases hb : b < 1 ∨ 5 < b
        · simp [validateRecommend, hq, hb]
        · simp [validateRecommend, hq, hb]

/-- The single pass of `searchSuburbs` classifies each suburb into the
first matching bucket, so the four buckets are the four priority filters
in input order. -/
theorem searchBuckets_eq (q : String) (subs : List Suburb) :
    searchBuckets q subs =
      (subs.filter (matchesExact q), subs.filter (matchesStart q),
       subs.filter (matchesSub q), subs.filter (matchesPostcode q)) := by
  induction subs with
  | nil => rfl
  | cons s rest ih =>
    rw [searchBuckets, ih]
    by_cases h1 : nameLC s = q
    · simp [List.filter_cons, matchesExact, matchesStart, matchesSub, matchesPostcode, h1]
    · by_cases h2 : jsStartsWith (nameLC s) q
      · simp [List.filter_cons, matchesExact, matchesStart, matchesSub, matchesPostcode, h1, h2]
      · by_cases h3 : jsIncludes (nameLC s) q
        · simp [List.filter_cons, matchesExact, matchesStart, matchesSub, matchesPostcode,
            h1, h2, h3]
        · by_cases h4 : jsStartsWith s.postcode q
          · simp [List.filter_cons, matchesExact, matchesStart, matchesSub, matchesPostcode,
              h1, h2, h3, h4]
          · simp [List.filter_cons, matchesExact, matchesStart, matchesSub, matchesPostcode,
              h1, h2, h3, h4]

/-- C7: for a query that is non-empty after normalisation, `searchSuburbs`
returns exact-name matches first, then name-prefix matches, then
name-substring matches, then postcode-prefix matches, each group
excluding the earlier ones; and the workplace resolution of
`GET /recommend` takes the head of that list whenever it is non-empty.
In particular an exact-name suburb precedes every prefix-only match. -/
theorem C7_search_priority (subs : List Suburb) (query : String)
    (hq : jsTrim (jsLower query) ≠ "") :
    searchSuburbs subs query
      = subs.filter (matchesExact (jsTrim (jsLower query)))
        ++ subs.filter (matchesStart (jsTrim (jsLower query)))
        ++ subs.filter (matchesSub (jsTrim (jsLower query)))
        ++ subs.filter (matchesPostcode (jsTrim (jsLower query)))
  ∧ (searchSuburbs subs (jsTrim query) ≠ [] →
      resolveWorkplace subs query = (searchSuburbs subs (jsTrim query)).head?) := by
  constructor
  · rw [searchSuburbs]
    simp only [if_neg hq, searchBuckets_eq]
  · intro hne
    rw [resolveWorkplace]
    rcases hm : searchSuburbs subs (jsTrim query) with _ | ⟨m, rest⟩
    · exact absurd hm hne
    · simp only [hm]
      rfl

/-- C7 witness: the query "Trendy" on the two demo suburbs. -/
theorem C7_witness :
    jsTrim (jsLower "Trendy") ≠ "" ∧
    ((searchSuburbs [suburbTrendy, suburbSupplied] "Trendy"
      = [suburbTrendy, suburbSupplied].filter (matchesExact (jsTrim (jsLower "Trendy")))
        ++ [suburbTrendy, suburbSupplied].filter (matchesStart (jsTrim (jsLower "Trendy")))
        ++ [suburbTrendy, suburbSupplied].filter (matchesSub (jsTrim (jsLower "Trendy")))
        ++ [suburbTrendy, suburbSupplied].filter (matchesPostcode (jsTrim (jsLower "Trendy"))))
  ∧ (searchSuburbs [suburbTrendy, suburbSupplied] (jsTrim "Trendy") ≠ [] →
      resolveWorkplace [suburbTrendy, suburbSupplied] "Trendy"
        = (searchSuburbs [suburbTrendy, suburbSupplied] (jsTrim "Trendy")).head?)) :=
  ⟨by decide, C7_search_priority [suburbTrendy, suburbSupplied] "Trendy" (by decide)⟩

/-- C8: an enrichment cache entry whose age strictly exceeds the 24-hour
time-to-live is never served — `getCached` returns `null` for it even
though it is still stored, deletes it from the map at that read, and the
route then performs the upstream fetch and returns the fetched payload. -/
theorem C8_cache_expiry {α : Type} (now : ℚ) (cache : Cache α) (key : String)
    (entry : CachedResult α) (h1 : cache key = some entry)
    (h2 : now - entry.timestamp > CACHE_TTL_MS) :
    (getCached now cache key).1 = none
  ∧ (getCached now cache key).2 key = none
  ∧ ∀ upstream : α, (overpassStep now cache key upstream).2.2 = true
      ∧ (overpassStep now cache key upstream).1 = upstream := by
  have hg : getCached now cache key = (none, fun k => if k = key then none else cache k) := by
    rw [getCached.eq_def, h1]
    simp only [if_pos h2]
  refine ⟨by rw [hg], by rw [hg]; simp, ?_⟩
  intro upstream
  rw [overpassStep.eq_def, hg]
  exact ⟨rfl, rfl⟩

/-- C8 witness: a cache holding one entry written at time 0, read one
millisecond after the 24-hour time-to-live has elapsed. -/
theorem C8_witness :
    cacheDemo "poi" = some ⟨7, 0⟩ ∧
    ((86400001 : ℚ) - (⟨7, 0⟩ : CachedResult ℕ).timestamp > CACHE_TTL_MS) ∧
    ((getCached 86400001 cacheDemo "poi").1 = none
  ∧ (getCached 86400001 cacheDemo "poi").2 "poi" = none
  ∧ ∀ upstream : ℕ, (overpassStep 86400001 cacheDemo "poi" upstream).2.2 = true
      ∧ (overpassStep 86400001 cacheDemo "poi" upstream).1 = upstream) :=
  ⟨by decide, by norm_num [CACHE_TTL_MS],
    C8_cache_expiry 86400001 cacheDemo "poi" ⟨7, 0⟩ (by decide) (by norm_num [CACHE_TTL_MS])⟩

/-- C9: the haversine distance with Earth radius 6371 km is symmetric in
its two coordinate pairs, and is zero when both points coincide. -/
theorem C9_haversine_symm_zero (lat1 lng1 lat2 lng2 : ℝ) :
    haversineKm lat1 lng1 lat2 lng2 = haversineKm lat2 lng2 lat1 lng1
  ∧ haversineKm lat1 lng1 lat1 lng1 = 0 := by
  have hsin : ∀ x y : ℝ, Real.sin (toRad (x - y) / 2) ^ 2 = Real.sin (toRad (y - x) / 2) ^ 2 := by
    intro x y
    have hx : toRad (x - y) / 2 = -(toRad (y - x) / 2) := by
      simp only [toRad]
      ring
    rw [hx, Real.sin_neg]
    ring
  constructor
  · simp only [haversineKm]
    have ha : Real.sin (toRad (lat2 - lat1) / 2) ^ 2 +
        Real.cos (toRad lat1) * Real.cos (toRad lat2) * Real.sin (toRad (lng2 - lng1) / 2) ^ 2
      = Real.sin (toRad (lat1 - lat2) / 2) ^ 2 +
        Real.cos (toRad lat2) * Real.cos (toRad lat1) * Real.sin (toRad (lng1 - lng2) / 2) ^ 2 := by
      rw [hsin lat2 lat1, hsin lng2 lng1]
      ring
    rw [ha]
  · simp only [haversineKm, sub_self]
    have h0 : toRad 0 = 0 := by
      simp [toRad]
    rw [h0]
    norm_num [Real.sqrt_one, atan2, Real.arctan_zero]

/-- C10: `estimateCommuteTime` fails exactly when either postcode does not
resolve to a suburb whose coordinates pass the truthiness guard (absent,
null or zero coordinates are all falsy in JavaScript); any returned
estimate has at least 5 minutes; equal postcodes short-circuit to
exactly 0 km and 5 minutes; and for distinct postcodes the estimate is
`max(5, round(haversine_distance * 2.5))` minutes with the distance
rounded to one decimal. -/
theorem C10_estimateCommuteTime_spec (subs : List Suburb) (fromP toP : String) :
    (estimateCommuteTime subs fromP toP = none ↔
      ¬(commuteResolvable subs fromP = true ∧ commuteResolvable subs toP = true))
  ∧ (∀ est, estimateCommuteTime subs fromP toP = some est → 5 ≤ est.estimatedMinutes)
  ∧ (fromP = toP → commuteResolvable subs fromP = true → commuteResolvable subs toP = true →
      estimateCommuteTime subs fromP toP = some ⟨0, 5, "~5 min"⟩)
  ∧ (∀ sf st, getSuburbByPostcode subs fromP = some sf →
      getSuburbByPostcode subs toP = some st →
      (truthyQ sf.lat && truthyQ sf.lng && truthyQ st.lat && truthyQ st.lng) = true →
      fromP ≠ toP →
      estimateCommuteTime subs fromP toP = some
        ⟨((jsRoundR (haversineKm ((sf.lat.getD 0 : ℚ) : ℝ) ((sf.lng.getD 0 : ℚ) : ℝ)
              ((st.lat.getD 0 : ℚ) : ℝ) ((st.lng.getD 0 : ℚ) : ℝ) * 10) : ℤ) : ℝ) / 10,
          max 5 (jsRoundR (haversineKm ((sf.lat.getD 0 : ℚ) : ℝ) ((sf.lng.getD 0 : ℚ) : ℝ)
              ((st.lat.getD 0 : ℚ) : ℝ) ((st.lng.getD 0 : ℚ) : ℝ) * (5 / 2))),
          "~" ++ toString (max 5 (jsRoundR (haversineKm ((sf.lat.getD 0 : ℚ) : ℝ)
              ((sf.lng.getD 0 : ℚ) : ℝ) ((st.lat.getD 0 : ℚ) : ℝ)
              ((st.lng.getD 0 : ℚ) : ℝ) * (5 / 2)))) ++ " min"⟩) := by
  rcases hf : getSuburbByPostcode subs fromP with _ | sf0
  · refine ⟨?_, ?_, ?_, ?_⟩
    · rw [estimateCommuteTime.eq_def, hf]
      simp [commuteResolvable, hf]
    · intro est hest
      rw [estimateCommuteTime.eq_def, hf] at hest
      simp at hest
    · intro _ hcf
      rw [commuteResolvable, hf] at hcf
      simp at hcf
    · intro sf st hsf
      simp at hsf
  · rcases ht : getSuburbByPostcode subs toP with _ | st0
    · refine ⟨?_, ?_, ?_, ?_⟩
      · rw [estimateCommuteTime.eq_def, hf, ht]
        simp [commuteResolvable, hf, ht]
      · intro est hest
        rw [estimateCommuteTime.eq_def, hf, ht] at hest
        simp at hest
      · intro _ _ hct
        rw [commuteResolvable, ht] at hct
        simp at hct
      · intro sf st _ hst
        simp at hst
    · by_cases hc : (truthyQ sf0.lat && truthyQ sf0.lng && truthyQ st0.lat && truthyQ st0.lng) = true
      · have hcr1 : commuteResolvable subs fromP = true := by
          rw [commuteResolvable, hf]
          simp only [Bool.and_eq_true] at hc
          simp [hc.1.1.1, hc.1.1.2]
        have hcr2 : commuteResolvable subs toP = true := by
          rw [commuteResolvable, ht]
          simp only [Bool.and_eq_true] at hc
          simp [hc.1.2, hc.2]
        by_cases heq : fromP = toP
        · have hval : estimateCommuteTime subs fromP toP = some ⟨0, 5, "~5 min"⟩ := by
            rw [estimateCommuteTime.eq_def, hf, ht]
            simp only [if_pos hc, if_pos heq]
          refine ⟨?_, ?_, fun _ _ _ => hval, ?_⟩
          · rw [hval]
            simp [hcr1, hcr2]
          · intro est hest
            rw [hval] at hest
            have he := Option.some.inj hest
            rw [← he]
          · intro sf st hsf hst _ hne
            exact absurd heq hne
        · have hval : estimateCommuteTime subs fromP toP = some
              ⟨((jsRoundR (haversineKm ((sf0.lat.getD 0 : ℚ) : ℝ) ((sf0.lng.getD 0 : ℚ) : ℝ)
                    ((st0.lat.getD 0 : ℚ) : ℝ) ((st0.lng.getD 0 : ℚ) : ℝ) * 10) : ℤ) : ℝ) / 10,
                max 5 (jsRoundR (haversineKm ((sf0.lat.getD 0 : ℚ) : ℝ) ((sf0.lng.getD 0 : ℚ) : ℝ)
                    ((st0.lat.getD 0 : ℚ) : ℝ) ((st0.lng.getD 0 : ℚ) : ℝ) * (5 / 2))),
                "~" ++ toString (max 5 (jsRoundR (haversineKm ((sf0.lat.getD 0 : ℚ) : ℝ)
                    ((sf0.lng.getD 0 : ℚ) : ℝ) ((st0.lat.getD 0 : ℚ) : ℝ)
                    ((st0.lng.getD 0 : ℚ) : ℝ) * (5 / 2)))) ++ " min"⟩ := by
            rw [estimateCommuteTime.eq_def, hf, ht]
            simp only [if_pos hc, if_neg heq]
          refine ⟨?_, ?_, fun he => absurd he heq, ?_⟩
          · rw [hval]
            simp [hcr1, hcr2]
          · intro est hest
            rw [hval] at hest
            have he := Option.some.inj hest
            rw [← he]
            exact le_max_left _ _
          · intro sf st hsf hst _ _
            have hesf : sf0 = sf := Option.some.inj hsf
            have hest2 : st0 = st := Option.some.inj hst
            rw [hval, hesf, hest2]
      · refine ⟨?_, ?_, ?_, ?_⟩
        · rw [estimateCommuteTime.eq_def, hf, ht]
          simp only [if_neg hc]
          constructor
          · intro _ hcc
            rcases hcc with ⟨hc1, hc2⟩
            rw [commuteResolvable, hf] at hc1
            rw [commuteResolvable, ht] at hc2
            apply hc
            simp only [Bool.and_eq_true] at hc1 hc2 ⊢
            exact ⟨⟨⟨hc1.1, hc1.2⟩, hc2.1⟩, hc2.2⟩
          · intro _
            trivial
        · intro est hest
          rw [estimateCommuteTime.eq_def, hf, ht] at hest
          simp only [if_neg hc] at hest
          simp at hest
        · intro _ hcf hct
          rw [commuteResolvable, hf] at hcf
          rw [commuteResolvable, ht] at hct
          exact absurd (by
            simp only [Bool.and_eq_true] at hcf hct ⊢
            exact ⟨⟨⟨hcf.1, hcf.2⟩, hct.1⟩, hct.2⟩) hc
        · intro sf st hsf hst hcc _
          have hesf : sf0 = sf := Option.some.inj hsf
          have hest2 : st0 = st := Option.some.inj hst
          rw [hesf, hest2] at hc
          exact absurd hcc hc
